import Mathlib

/-!
Shallow embedding of the Solana progressive-jackpot program
(programs/progressive-jackpot/src).  Machine integers (u64, u16, i64) are
modelled as Nat / Int; Rust checked arithmetic is modelled by Option-valued
operations that return none exactly when the Rust operation would.
Account public keys are modelled as Nat (Pubkey::default() = 0).
Each instruction handler becomes a pure function returning
Except CasinoError of the updated account state; returning an error models
the transaction aborting with no side effects.
-/

namespace Casino

/-- Checked u64 multiplication: none iff the product overflows 64 bits. -/
def checked_mul (a b : ℕ) : Option ℕ :=
  if a * b < 2 ^ 64 then some (a * b) else none

/-- Checked u64 addition: none iff the sum overflows 64 bits. -/
def checked_add (a b : ℕ) : Option ℕ :=
  if a + b < 2 ^ 64 then some (a + b) else none

/-- Checked u16 addition: none iff the sum overflows 16 bits. -/
def checked_add16 (a b : ℕ) : Option ℕ :=
  if a + b < 2 ^ 16 then some (a + b) else none

/-- Checked u64 subtraction: none iff the subtrahend exceeds the minuend. -/
def checked_sub (a b : ℕ) : Option ℕ :=
  if b ≤ a then some (a - b) else none

/-- Checked u64 division: none iff the divisor is zero. -/
def checked_div (a b : ℕ) : Option ℕ :=
  if b = 0 then none else some (a / b)

/-- Checked i64 subtraction: none iff the difference leaves the i64 range. -/
def checked_sub_i64 (a b : ℤ) : Option ℤ :=
  if -(2 ^ 63) ≤ a - b ∧ a - b ≤ 2 ^ 63 - 1 then some (a - b) else none

/-- The recurring Rust pattern x.checked_mul(p).and_then(div 10000). -/
def mul_div_10000 (a p : ℕ) : Option ℕ :=
  match checked_mul a p with
  | none => none
  | some x => checked_div x 10000

/-- Error codes of the program (error.rs). -/
inductive CasinoError where
  | BetTooSmall
  | BetTooLarge
  | EmptyPool
  | VrfRequestNotFound
  | VrfNotFulfilled
  | VrfAlreadyFulfilled
  | InvalidVrfAuthority
  | NoWin
  | InsufficientFunds
  | Unauthorized
  | InvalidConfig
  | DefiNotInitialized
  | NoRewardsAvailable
  | ClaimPeriodNotStarted
  | MathOverflow
  | VrfTimeout
  | InvalidWinThreshold
  | ResetThresholdNotMet
  deriving DecidableEq, Inhabited

/-- Global configuration account (state.rs, Config). -/
structure Config where
  authority : ℕ
  jackpot_percentage : ℕ
  house_percentage : ℕ
  defi_percentage : ℕ
  min_bet : ℕ
  max_bet : ℕ
  win_probability_bps : ℕ
  vrf_provider : ℕ
  orao_network : Option ℕ
  switchboard_queue : Option ℕ
  defi_vault_bump : ℕ
  total_bets : ℕ
  total_wins : ℕ
  bump : ℕ
  deriving DecidableEq, Inhabited

/-- Progressive jackpot pool account (state.rs, JackpotPool). -/
structure JackpotPool where
  balance : ℕ
  last_winner : Option ℕ
  last_win_timestamp : Option ℤ
  reset_threshold : ℕ
  bets_since_win : ℕ
  milestone_bets : ℕ
  bump : ℕ
  deriving DecidableEq, Inhabited

/-- Individual bet record (state.rs, Bet). -/
structure Bet where
  player : ℕ
  amount : ℕ
  timestamp : ℤ
  vrf_request_id : Option (List ℕ)
  status : ℕ
  win_amount : ℕ
  bump : ℕ
  deriving DecidableEq, Inhabited

/-- DeFi reward vault (state.rs, RewardVault). -/
structure RewardVault where
  staked_amount : ℕ
  total_rewards_distributed : ℕ
  last_distribution : ℤ
  distribution_period : ℤ
  apy_bps : ℕ
  bump : ℕ
  deriving DecidableEq, Inhabited

/-- User reward claim account (state.rs, RewardClaim). -/
structure RewardClaim where
  user : ℕ
  total_earned : ℕ
  total_claimed : ℕ
  last_claim : ℤ
  bump : ℕ
  deriving DecidableEq, Inhabited

/-- VRF request tracking account (state.rs, VrfRequest). -/
structure VrfRequest where
  bet : ℕ
  player : ℕ
  timestamp : ℤ
  request_id : List ℕ
  status : ℕ
  result : Option (List ℕ)
  bump : ℕ
  deriving DecidableEq, Inhabited

/-- Little-endian u64 of the first 8 bytes (u64::from_le_bytes). -/
def u64_from_le_bytes (l : List ℕ) : ℕ :=
  (l.take 8).foldr (fun b acc => b + 256 * acc) 0

/-- Little-endian byte decomposition of a natural number into 8 bytes. -/
def nat_le_bytes8 (n : ℕ) : List ℕ :=
  [n % 256, n / 256 % 256, n / 256 ^ 2 % 256, n / 256 ^ 3 % 256,
   n / 256 ^ 4 % 256, n / 256 ^ 5 % 256, n / 256 ^ 6 % 256, n / 256 ^ 7 % 256]

/-- i64 little-endian bytes (two's complement), as in to_le_bytes. -/
def i64_le_bytes (t : ℤ) : List ℕ :=
  nat_le_bytes8 (t.emod (2 ^ 64)).toNat

/-- The request id built in contribute_bet: 8 timestamp bytes zero-padded to 32. -/
def request_id_bytes (t : ℤ) : List ℕ :=
  i64_le_bytes t ++ List.replicate 24 0

/-- Result state of contribute_bet. -/
structure ContributeOut where
  config : Config
  pool : JackpotPool
  reward_vault : RewardVault
  bet : Bet
  vrf_request : Option VrfRequest
  jackpot_contribution : ℕ
  house_fee : ℕ
  defi_contribution : ℕ
  deriving DecidableEq, Inhabited

/-- instructions/contribute_bet.rs, contribute_bet.
Validates the bet bounds, computes the three-way split with checked
arithmetic, credits pool / house / reserve, bumps the counters, optionally
opens a VRF request, and creates the bet record. -/
def contribute_bet (config : Config) (pool : JackpotPool) (reward_vault : RewardVault)
    (amount : ℕ) (player_key bet_key : ℕ) (now : ℤ)
    (bet_bump vrf_bump : ℕ) : Except CasinoError ContributeOut :=
  if amount < config.min_bet then .error .BetTooSmall
  else if config.max_bet < amount then .error .BetTooLarge
  else
    match mul_div_10000 amount config.jackpot_percentage with
    | none => .error .MathOverflow
    | some jackpot_contribution =>
    match mul_div_10000 amount config.house_percentage with
    | none => .error .MathOverflow
    | some house_fee =>
    match mul_div_10000 amount config.defi_percentage with
    | none => .error .MathOverflow
    | some defi_contribution =>
    match checked_add pool.balance jackpot_contribution with
    | none => .error .MathOverflow
    | some new_balance =>
    match checked_add pool.bets_since_win 1 with
    | none => .error .MathOverflow
    | some new_bets_since_win =>
    match checked_add config.total_bets 1 with
    | none => .error .MathOverflow
    | some new_total_bets =>
    match checked_add reward_vault.staked_amount defi_contribution with
    | none => .error .MathOverflow
    | some new_staked =>
      let pool1 : JackpotPool :=
        { pool with balance := new_balance, bets_since_win := new_bets_since_win }
      let config1 : Config := { config with total_bets := new_total_bets }
      let reward_vault1 : RewardVault := { reward_vault with staked_amount := new_staked }
      let should_trigger_vrf : Bool :=
        if 0 < pool1.milestone_bets then decide (pool1.milestone_bets ≤ pool1.bets_since_win)
        else true
      let vrf_request1 : Option VrfRequest :=
        if should_trigger_vrf then
          some { bet := bet_key, player := player_key, timestamp := now,
                 request_id := request_id_bytes now, status := 0,
                 result := none, bump := vrf_bump }
        else none
      let bet1 : Bet :=
        { player := player_key, amount := amount, timestamp := now,
          vrf_request_id := if should_trigger_vrf then some (request_id_bytes now) else none,
          status := 0, win_amount := 0, bump := bet_bump }
      .ok { config := config1, pool := pool1, reward_vault := reward_vault1,
            bet := bet1, vrf_request := vrf_request1,
            jackpot_contribution := jackpot_contribution,
            house_fee := house_fee, defi_contribution := defi_contribution }

/-- Mid-state of fulfill_jackpot after the win/loss branch, before the
pool-reset check. -/
structure FulfillMid where
  config : Config
  pool : JackpotPool
  bet : Bet
  vrf_request : VrfRequest
  win_credit : ℕ
  deriving DecidableEq, Inhabited

/-- Result state of fulfill_jackpot.  player_credit is the total number of
lamports transferred to the player (win payout plus reset payout). -/
structure FulfillOut where
  config : Config
  pool : JackpotPool
  bet : Bet
  vrf_request : VrfRequest
  player_credit : ℕ
  deriving DecidableEq, Inhabited

/-- The tiered win multiplier of fulfill_jackpot.rs (basis points of pool). -/
def win_multiplier (vrf_mod win_threshold : ℕ) : ℕ :=
  if vrf_mod < win_threshold / 10 then 10000
  else if vrf_mod < win_threshold / 2 then 5000
  else 2500

/-- instructions/fulfill_jackpot.rs, validation and win/loss branch:
checks pending status, bet back-reference and the 3600-second timeout, marks
the request fulfilled, and applies the win or loss outcome. -/
def fulfill_outcome (config : Config) (pool : JackpotPool) (bet : Bet)
    (vrf_request : VrfRequest) (bet_key player_key : ℕ)
    (vrf_result : List ℕ) (now : ℤ) : Except CasinoError FulfillMid :=
  if vrf_request.status ≠ 0 then .error .VrfRequestNotFound
  else if vrf_request.bet ≠ bet_key then .error .InvalidVrfAuthority
  else if ¬ now - vrf_request.timestamp < 3600 then .error .VrfTimeout
  else if u64_from_le_bytes vrf_result % 10000 < config.win_probability_bps then
    match mul_div_10000 pool.balance
        (win_multiplier (u64_from_le_bytes vrf_result % 10000)
          config.win_probability_bps) with
    | none => .error .MathOverflow
    | some win_amount =>
      if ¬ win_amount ≤ pool.balance then .error .InsufficientFunds
      else
        match checked_sub pool.balance win_amount with
        | none => .error .MathOverflow
        | some new_balance =>
        match checked_add config.total_wins 1 with
        | none => .error .MathOverflow
        | some new_total_wins =>
          .ok { config := { config with total_wins := new_total_wins },
                pool := { pool with
                          balance := new_balance,
                          last_winner := some player_key,
                          last_win_timestamp := some now,
                          bets_since_win := 0 },
                bet := { bet with status := 1, win_amount := win_amount },
                vrf_request := { vrf_request with status := 1, result := some vrf_result },
                win_credit := win_amount }
  else
    .ok { config := config, pool := pool,
          bet := { bet with status := 2, win_amount := 0 },
          vrf_request := { vrf_request with status := 1, result := some vrf_result },
          win_credit := 0 }

/-- instructions/fulfill_jackpot.rs, pool auto-reset check evaluated after
the win/loss branch: pays reset_threshold / 2 and zeroes bets_since_win when
the balance has reached a positive reset_threshold.  Returns the updated pool
and the reset payout. -/
def apply_reset (pool : JackpotPool) : Except CasinoError (JackpotPool × ℕ) :=
  if pool.reset_threshold ≤ pool.balance ∧ 0 < pool.reset_threshold then
    match checked_div pool.reset_threshold 2 with
    | none => .error .MathOverflow
    | some reset_payout =>
      if 0 < reset_payout then
        match checked_sub pool.balance reset_payout with
        | none => .error .MathOverflow
        | some new_balance =>
          .ok ({ pool with balance := new_balance, bets_since_win := 0 }, reset_payout)
      else
        .ok ({ pool with bets_since_win := 0 }, 0)
  else .ok (pool, 0)

/-- instructions/fulfill_jackpot.rs, fulfill_jackpot: the win/loss branch
followed by the pool auto-reset check. -/
def fulfill_jackpot (config : Config) (pool : JackpotPool) (bet : Bet)
    (vrf_request : VrfRequest) (bet_key player_key : ℕ)
    (vrf_result : List ℕ) (now : ℤ) : Except CasinoError FulfillOut :=
  match fulfill_outcome config pool bet vrf_request bet_key player_key vrf_result now with
  | .error e => .error e
  | .ok mid =>
    match apply_reset mid.pool with
    | .error e => .error e
    | .ok (pool2, reset_payout) =>
      .ok { config := mid.config, pool := pool2, bet := mid.bet,
            vrf_request := mid.vrf_request,
            player_credit := mid.win_credit + reset_payout }

/-- Result state of claim_rewards. -/
structure ClaimOut where
  reward_vault : RewardVault
  reward_claim : RewardClaim
  rewards : ℕ
  deriving DecidableEq, Inhabited

/-- The reward pipeline of claim_rewards.rs:
staked.checked_mul(apy_decimal).and_then(mul elapsed).and_then(div 10000)
.and_then(div 31536000). -/
def rewards_calc (staked apy_decimal elapsed : ℕ) : Option ℕ :=
  match checked_mul staked apy_decimal with
  | none => none
  | some x1 =>
  match checked_mul x1 elapsed with
  | none => none
  | some x2 =>
  match checked_div x2 10000 with
  | none => none
  | some x3 => checked_div x3 31536000

/-- The full yield formula as a function of config and vault parameters:
apy_decimal = floor(defi_bp * apy_bps / 10000) feeding rewards_calc. -/
def yield_reward (defi_bp apy_bps staked elapsed : ℕ) : Option ℕ :=
  match mul_div_10000 defi_bp apy_bps with
  | none => none
  | some apy_decimal => rewards_calc staked apy_decimal elapsed

/-- time_elapsed in claim_rewards.rs: checked_sub with unwrap_or(0). -/
def elapsed_of (now last : ℤ) : ℤ :=
  match checked_sub_i64 now last with
  | some d => d
  | none => 0

/-- instructions/claim_rewards.rs, body from the time_elapsed computation
onward, applied to the possibly just-initialized claim ledger. -/
def claim_rewards_core (config : Config) (reward_vault : RewardVault)
    (reward_claim1 : RewardClaim) (now : ℤ) (vault_lamports : ℕ) :
    Except CasinoError ClaimOut :=
  if elapsed_of now reward_claim1.last_claim ≤ 0 then .error .ClaimPeriodNotStarted
  else
    match mul_div_10000 config.defi_percentage reward_vault.apy_bps with
    | none => .error .MathOverflow
    | some apy_decimal =>
    match rewards_calc reward_vault.staked_amount apy_decimal
        (elapsed_of now reward_claim1.last_claim).toNat with
    | none => .error .MathOverflow
    | some rewards =>
      if rewards = 0 then .error .NoRewardsAvailable
      else if vault_lamports < rewards then .error .InsufficientFunds
      else
        match checked_add reward_claim1.total_earned rewards,
              checked_add reward_claim1.total_claimed rewards,
              checked_add reward_vault.total_rewards_distributed rewards with
        | some new_earned, some new_claimed, some new_distributed =>
          .ok { reward_vault :=
                  { reward_vault with
                    total_rewards_distributed := new_distributed,
                    last_distribution := now },
                reward_claim :=
                  { reward_claim1 with
                    total_earned := new_earned,
                    total_claimed := new_claimed,
                    last_claim := now },
                rewards := rewards }
        | _, _, _ => .error .MathOverflow

/-- instructions/claim_rewards.rs, claim_rewards.  vault_lamports is the
lamport balance held by the reward vault account.  The claim ledger is
lazily initialized (last_claim := now) when its user is the default key. -/
def claim_rewards (config : Config) (reward_vault : RewardVault)
    (reward_claim : RewardClaim) (user_key : ℕ) (now : ℤ)
    (vault_lamports : ℕ) (claim_bump : ℕ) : Except CasinoError ClaimOut :=
  if reward_vault.staked_amount = 0 then .error .DefiNotInitialized
  else if reward_claim.user = 0 then
    claim_rewards_core config reward_vault
      { user := user_key, total_earned := 0, total_claimed := 0,
        last_claim := now, bump := claim_bump } now vault_lamports
  else
    claim_rewards_core config reward_vault reward_claim now vault_lamports

/-- instructions/update_config.rs, merge of the optional min_bet field
(requires the new value to be positive). -/
def merge_min_bet (c : Config) : Option ℕ → Except CasinoError Config
  | none => .ok c
  | some mb => if mb = 0 then .error .InvalidConfig else .ok { c with min_bet := mb }

/-- instructions/update_config.rs, merge of the optional max_bet field
(requires the new value to be at least the merged min_bet). -/
def merge_max_bet (c : Config) : Option ℕ → Except CasinoError Config
  | none => .ok c
  | some mxb =>
    if mxb < c.min_bet then .error .InvalidConfig else .ok { c with max_bet := mxb }

/-- instructions/update_config.rs, merge of the optional win probability
(requires a value in 1..=10000). -/
def merge_win_prob (c : Config) : Option ℕ → Except CasinoError Config
  | none => .ok c
  | some wp =>
    if 0 < wp ∧ wp ≤ 10000 then .ok { c with win_probability_bps := wp }
    else .error .InvalidConfig

/-- instructions/update_config.rs, unconditional merge of the three optional
percentage fields (assigned without validation at merge time). -/
def merge_percentages (c : Config) (jp hp dp : Option ℕ) : Config :=
  { c with
    jackpot_percentage := jp.getD c.jackpot_percentage,
    house_percentage := hp.getD c.house_percentage,
    defi_percentage := dp.getD c.defi_percentage }

/-- instructions/update_config.rs, update_config: authority check, partial
merge of the supplied fields, and validation of the merged percentage sum. -/
def update_config (config : Config) (pool : JackpotPool) (reward_vault : RewardVault)
    (authority_key : ℕ)
    (jackpot_percentage house_percentage defi_percentage : Option ℕ)
    (min_bet max_bet win_probability_bps : Option ℕ)
    (reset_threshold milestone_bets apy_bps : Option ℕ) :
    Except CasinoError (Config × JackpotPool × RewardVault) :=
  if authority_key ≠ config.authority then .error .Unauthorized
  else
    match merge_min_bet
        (merge_percentages config jackpot_percentage house_percentage defi_percentage)
        min_bet with
    | .error e => .error e
    | .ok c4 =>
    match merge_max_bet c4 max_bet with
    | .error e => .error e
    | .ok c5 =>
    match merge_win_prob c5 win_probability_bps with
    | .error e => .error e
    | .ok c6 =>
    match checked_add16 c6.jackpot_percentage c6.house_percentage with
    | none => .error .MathOverflow
    | some x =>
    match checked_add16 x c6.defi_percentage with
    | none => .error .MathOverflow
    | some total_percentage =>
      if ¬ total_percentage ≤ 10000 then .error .InvalidConfig
      else
        .ok (c6,
             { pool with
               reset_threshold := reset_threshold.getD pool.reset_threshold,
               milestone_bets := milestone_bets.getD pool.milestone_bets },
             { reward_vault with apy_bps := apy_bps.getD reward_vault.apy_bps })

/-! ## Concrete states and decidability helpers -/

/-- View of Except as a sum type, used to decide equality of run results. -/
def except_to_sum {ε α : Type} : Except ε α → ε ⊕ α
  | .error e => .inl e
  | .ok a => .inr a

instance {ε α : Type} [DecidableEq ε] [DecidableEq α] : DecidableEq (Except ε α) :=
  fun a b =>
    decidable_of_iff (except_to_sum a = except_to_sum b)
      (by cases a <;> cases b <;> simp [except_to_sum])

def c1_config : Config :=
  { authority := 0, jackpot_percentage := 500, house_percentage := 200,
    defi_percentage := 100, min_bet := 1, max_bet := 1000,
    win_probability_bps := 1000, vrf_provider := 0, orao_network := none,
    switchboard_queue := none, defi_vault_bump := 0, total_bets := 0,
    total_wins := 0, bump := 0 }

def c1_pool : JackpotPool :=
  { balance := 0, last_winner := none, last_win_timestamp := none,
    reset_threshold := 0, bets_since_win := 0, milestone_bets := 0, bump := 0 }

def c1_vault : RewardVault :=
  { staked_amount := 0, total_rewards_distributed := 0, last_distribution := 0,
    distribution_period := 0, apy_bps := 500, bump := 0 }

def c1_out : ContributeOut :=
  (contribute_bet c1_config c1_pool c1_vault 100 1 2 0 0 0).toOption.getD default

def c2_config : Config :=
  { authority := 0, jackpot_percentage := 500, house_percentage := 200,
    defi_percentage := 100, min_bet := 1, max_bet := 1000,
    win_probability_bps := 1000, vrf_provider := 0, orao_network := none,
    switchboard_queue := none, defi_vault_bump := 0, total_bets := 0,
    total_wins := 0, bump := 0 }

def c2_pool : JackpotPool :=
  { balance := 10000, last_winner := none, last_win_timestamp := none,
    reset_threshold := 0, bets_since_win := 3, milestone_bets := 0, bump := 0 }

def c2_bet : Bet :=
  { player := 1, amount := 100, timestamp := 0, vrf_request_id := none,
    status := 0, win_amount := 0, bump := 0 }

def c2_req : VrfRequest :=
  { bet := 2, player := 1, timestamp := 0, request_id := List.replicate 32 0,
    status := 0, result := none, bump := 0 }

def c2_run (v : List ℕ) : Except CasinoError FulfillOut :=
  fulfill_jackpot c2_config c2_pool c2_bet c2_req 2 1 v 0

/-- Little-endian 32-byte values whose first 8 bytes encode 50, 400, 900, 1500. -/
def c2_vrf50 : List ℕ := 50 :: List.replicate 31 0

def c2_vrf400 : List ℕ := 144 :: 1 :: List.replicate 30 0

def c2_vrf900 : List ℕ := 132 :: 3 :: List.replicate 30 0

def c2_vrf1500 : List ℕ := 220 :: 5 :: List.replicate 30 0

def c2_out50 : FulfillOut := (c2_run c2_vrf50).toOption.getD default

def c3_pool : JackpotPool :=
  { balance := 10000, last_winner := none, last_win_timestamp := none,
    reset_threshold := 6000, bets_since_win := 3, milestone_bets := 0, bump := 0 }

def c3_vrf : List ℕ := 220 :: 5 :: List.replicate 30 0

def c3_out : FulfillOut :=
  (fulfill_jackpot c2_config c3_pool c2_bet c2_req 2 1 c3_vrf 0).toOption.getD default

def c5_req : VrfRequest :=
  { bet := 2, player := 1, timestamp := 0, request_id := List.replicate 32 0,
    status := 1, result := some (List.replicate 32 0), bump := 0 }

def c6_config : Config :=
  { authority := 7, jackpot_percentage := 100, house_percentage := 100,
    defi_percentage := 100, min_bet := 10, max_bet := 100,
    win_probability_bps := 1000, vrf_provider := 0, orao_network := none,
    switchboard_queue := none, defi_vault_bump := 0, total_bets := 0,
    total_wins := 0, bump := 0 }

def c6_pool : JackpotPool :=
  { balance := 0, last_winner := none, last_win_timestamp := none,
    reset_threshold := 0, bets_since_win := 0, milestone_bets := 0, bump := 0 }

def c6_vault : RewardVault :=
  { staked_amount := 0, total_rewards_distributed := 0, last_distribution := 0,
    distribution_period := 0, apy_bps := 0, bump := 0 }

def c6_out : Config × JackpotPool × RewardVault :=
  (update_config c6_config c6_pool c6_vault 7 none none none (some 200) none none
    none none none).toOption.getD default

def c6w_out : Config × JackpotPool × RewardVault :=
  (update_config c6_config c6_pool c6_vault 7 (some 300) none none none (some 500)
    none none none none).toOption.getD default

def c7_config : Config :=
  { authority := 0, jackpot_percentage := 500, house_percentage := 200,
    defi_percentage := 100, min_bet := 1, max_bet := 1000,
    win_probability_bps := 1000, vrf_provider := 0, orao_network := none,
    switchboard_queue := none, defi_vault_bump := 0, total_bets := 0,
    total_wins := 0, bump := 0 }

def c7_vault : RewardVault :=
  { staked_amount := 1000000, total_rewards_distributed := 0,
    last_distribution := 0, distribution_period := 0, apy_bps := 500, bump := 0 }

def c7_claim : RewardClaim :=
  { user := 9, total_earned := 0, total_claimed := 0, last_claim := 0, bump := 0 }

def c7_out : ClaimOut :=
  (claim_rewards c7_config c7_vault c7_claim 9 31536000 1000000 0).toOption.getD default

def c9_pool : JackpotPool :=
  { balance := 10000, last_winner := none, last_win_timestamp := none,
    reset_threshold := 4000, bets_since_win := 5, milestone_bets := 0, bump := 0 }

def c9_vrf : List ℕ := 220 :: 5 :: List.replicate 30 0

def c9_mid : FulfillMid :=
  (fulfill_outcome c2_config c9_pool c2_bet c2_req 2 1 c9_vrf 0).toOption.getD default

def c10_claim : RewardClaim :=
  { user := 0, total_earned := 0, total_claimed := 0, last_claim := 0, bump := 0 }

def c10_empty_vault : RewardVault :=
  { staked_amount := 0, total_rewards_distributed := 0, last_distribution := 0,
    distribution_period := 0, apy_bps := 500, bump := 0 }

/-! ## Helper lemmas -/

lemma mul_div_10000_some {a p v : ℕ} (h : mul_div_10000 a p = some v) :
    v = a * p / 10000 ∧ a * p < 2 ^ 64 := by
  unfold mul_div_10000 checked_mul checked_div at h
  split at h
  all_goals simp_all
  all_goals omega

lemma shares_sum_le (a j k d : ℕ) (hsum : j + k + d ≤ 10000) :
    a * j / 10000 + a * k / 10000 + a * d / 10000 ≤ a := by
  have h1 : (a * j / 10000 + a * k / 10000 + a * d / 10000) * 10000 ≤ a * 10000 := by
    calc (a * j / 10000 + a * k / 10000 + a * d / 10000) * 10000
        = a * j / 10000 * 10000 + a * k / 10000 * 10000 + a * d / 10000 * 10000 := by ring
      _ ≤ a * j + a * k + a * d := by
          have hj := Nat.div_mul_le_self (a * j) 10000
          have hk := Nat.div_mul_le_self (a * k) 10000
          have hd := Nat.div_mul_le_self (a * d) 10000
          omega
      _ = a * (j + k + d) := by ring
      _ ≤ a * 10000 := Nat.mul_le_mul_left a hsum
  exact Nat.le_of_mul_le_mul_right h1 (by norm_num)

/-! ## C1 -/

/-- C1: for every stake amount with min_bet ≤ amount ≤ max_bet and config
percentages summing to at most 10000 basis points, a successful
contribute_bet computes jackpot, house and reserve shares as the exact
floor-division formulas, and the three shares never sum to more than the
stake amount. -/
theorem contribute_shares_correct
    (config : Config) (pool : JackpotPool) (reward_vault : RewardVault)
    (amount player_key bet_key : ℕ) (now : ℤ) (bet_bump vrf_bump : ℕ)
    (out : ContributeOut)
    (hmin : config.min_bet ≤ amount) (hmax : amount ≤ config.max_bet)
    (hsum : config.jackpot_percentage + config.house_percentage +
            config.defi_percentage ≤ 10000)
    (hok : contribute_bet config pool reward_vault amount player_key bet_key now
             bet_bump vrf_bump = .ok out) :
    out.jackpot_contribution = amount * config.jackpot_percentage / 10000 ∧
    out.house_fee = amount * config.house_percentage / 10000 ∧
    out.defi_contribution = amount * config.defi_percentage / 10000 ∧
    out.jackpot_contribution + out.house_fee + out.defi_contribution ≤ amount := by
  unfold contribute_bet at hok
  rw [if_neg (by omega), if_neg (by omega)] at hok
  repeat first
    | exact Except.noConfusion hok
    | split at hok
  rename_i x1 v1 hj x2 v2 hh x3 v3 hd x4 v4 hb x5 v5 hw x6 v6 ht x7 v7 hs
  injection hok with hok
  subst hok
  obtain ⟨hj1, -⟩ := mul_div_10000_some hj
  obtain ⟨hh1, -⟩ := mul_div_10000_some hh
  obtain ⟨hd1, -⟩ := mul_div_10000_some hd
  subst hj1 hh1 hd1
  exact ⟨rfl, rfl, rfl, shares_sum_le amount _ _ _ hsum⟩

/-- C1 witness: a concrete 100-lamport bet under a 5% / 2% / 1% split. -/
theorem contribute_shares_correct_witness :
    c1_out.jackpot_contribution = 100 * c1_config.jackpot_percentage / 10000 ∧
    c1_out.house_fee = 100 * c1_config.house_percentage / 10000 ∧
    c1_out.defi_contribution = 100 * c1_config.defi_percentage / 10000 ∧
    c1_out.jackpot_contribution + c1_out.house_fee + c1_out.defi_contribution ≤ 100 :=
  contribute_shares_correct c1_config c1_pool c1_vault 100 1 2 0 0 0 c1_out
    (by decide) (by decide) (by decide) (by decide)

/-! ## C2 -/

lemma fulfill_outcome_bet (config : Config) (pool : JackpotPool) (bet : Bet)
    (vrf_request : VrfRequest) (bet_key player_key : ℕ) (vrf_result : List ℕ)
    (now : ℤ) (mid : FulfillMid)
    (hok : fulfill_outcome config pool bet vrf_request bet_key player_key
             vrf_result now = .ok mid) :
    ((mid.bet.status = 1) ↔
      u64_from_le_bytes vrf_result % 10000 < config.win_probability_bps) ∧
    (u64_from_le_bytes vrf_result % 10000 < config.win_probability_bps →
      mid.bet.win_amount =
        pool.balance * win_multiplier (u64_from_le_bytes vrf_result % 10000)
          config.win_probability_bps / 10000) := by
  unfold fulfill_outcome at hok
  split at hok
  · exact Except.noConfusion hok
  split at hok
  · exact Except.noConfusion hok
  split at hok
  · exact Except.noConfusion hok
  split at hok
  · rename_i hwin
    repeat first
      | exact Except.noConfusion hok
      | split at hok
    rename_i x1 w hw hle x2 nb hnb x3 nw hnw
    injection hok with hok
    subst hok
    refine ⟨by simpa using hwin, fun _ => ?_⟩
    exact (mul_div_10000_some hw).1
  · rename_i hloss
    injection hok with hok
    subst hok
    exact ⟨by simpa using hloss, fun hc => absurd hc hloss⟩

/-- C2: fulfill_jackpot interprets the first 8 bytes of the random value as a
little-endian u64 v, sets m = v mod 10000, wins exactly when
m < win_probability_bps, and pays the tiered multiplier (10000 below a tenth
of the threshold, 5000 below half, else 2500); with win_probability_bps =
1000 and a 10000-lamport pool, m = 50 pays the 10000 multiplier, m = 400
pays 5000, m = 900 pays 2500, and m = 1500 loses. -/
theorem fulfill_win_decision :
    (∀ (config : Config) (pool : JackpotPool) (bet : Bet) (vrf_request : VrfRequest)
       (bet_key player_key : ℕ) (vrf_result : List ℕ) (now : ℤ) (out : FulfillOut),
       vrf_result.length = 32 → (∀ b ∈ vrf_result, b < 256) →
       fulfill_jackpot config pool bet vrf_request bet_key player_key vrf_result now
         = .ok out →
       ((out.bet.status = 1) ↔
         u64_from_le_bytes vrf_result % 10000 < config.win_probability_bps) ∧
       (u64_from_le_bytes vrf_result % 10000 < config.win_probability_bps →
         out.bet.win_amount =
           pool.balance *
             (if u64_from_le_bytes vrf_result % 10000 < config.win_probability_bps / 10
              then 10000
              else if u64_from_le_bytes vrf_result % 10000 < config.win_probability_bps / 2
              then 5000
              else 2500) / 10000)) ∧
    (c2_run c2_vrf50).map (fun o => (o.bet.status, o.bet.win_amount)) = .ok (1, 10000) ∧
    (c2_run c2_vrf400).map (fun o => (o.bet.status, o.bet.win_amount)) = .ok (1, 5000) ∧
    (c2_run c2_vrf900).map (fun o => (o.bet.status, o.bet.win_amount)) = .ok (1, 2500) ∧
    (c2_run c2_vrf1500).map (fun o => (o.bet.status, o.bet.win_amount)) = .ok (2, 0) := by
  refine ⟨?_, by decide, by decide, by decide, by decide⟩
  intro config pool bet vrf_request bet_key player_key vrf_result now out _ _ hok
  unfold fulfill_jackpot at hok
  split at hok
  · exact Except.noConfusion hok
  rename_i mid hmid
  split at hok
  · exact Except.noConfusion hok
  rename_i pr pool2 reset_payout hreset
  injection hok with hok
  subst hok
  exact fulfill_outcome_bet config pool bet vrf_request bet_key player_key
    vrf_result now mid hmid

/-- C2 witness: the general win-decision statement applied to the concrete
m = 50 run. -/
theorem fulfill_win_decision_witness :
    (c2_out50.bet.status = 1) ↔
      u64_from_le_bytes c2_vrf50 % 10000 < c2_config.win_probability_bps :=
  (fulfill_win_decision.1 c2_config c2_pool c2_bet c2_req 2 1 c2_vrf50 0 c2_out50
    (by decide) (by decide) (by decide)).1

/-! ## Shared facts about fulfill_jackpot -/

lemma error_ne {α : Type} {e1 e2 : CasinoError} (h : e1 ≠ e2) :
    (Except.error e1 : Except CasinoError α) ≠ .error e2 :=
  fun hc => h (by injection hc)

lemma checked_sub_some {a b v : ℕ} (h : checked_sub a b = some v) :
    v = a - b ∧ b ≤ a := by
  unfold checked_sub at h
  split at h <;> simp_all

lemma mul_div_10000_le_self {b m w : ℕ} (hm : m ≤ 10000)
    (h : mul_div_10000 b m = some w) : w ≤ b := by
  obtain ⟨hw, -⟩ := mul_div_10000_some h
  subst hw
  calc b * m / 10000 ≤ b * 10000 / 10000 :=
        Nat.div_le_div_right (Nat.mul_le_mul_left b hm)
    _ = b := by omega

lemma win_multiplier_le (m t : ℕ) : win_multiplier m t ≤ 10000 := by
  unfold win_multiplier
  split
  · norm_num
  · split <;> norm_num

lemma apply_reset_eq (pool : JackpotPool) :
    apply_reset pool =
      .ok (if pool.reset_threshold ≤ pool.balance ∧ 0 < pool.reset_threshold then
             ({ pool with
                balance := pool.balance - pool.reset_threshold / 2,
                bets_since_win := 0 }, pool.reset_threshold / 2)
           else (pool, 0)) := by
  unfold apply_reset
  split
  · rename_i hcond
    have h2 : checked_div pool.reset_threshold 2 = some (pool.reset_threshold / 2) := by
      unfold checked_div
      norm_num
    have hle : pool.reset_threshold / 2 ≤ pool.balance :=
      Nat.le_trans (Nat.div_le_self pool.reset_threshold 2) hcond.1
    have hsub : checked_sub pool.balance (pool.reset_threshold / 2) =
        some (pool.balance - pool.reset_threshold / 2) := by
      unfold checked_sub
      rw [if_pos hle]
    simp only [h2, hsub, if_pos hcond]
    by_cases hq : 0 < pool.reset_threshold / 2
    · rw [if_pos hq]
    · rw [if_neg hq]
      have h0 : pool.reset_threshold / 2 = 0 := by omega
      rw [h0, Nat.sub_zero]
  · rfl

lemma fulfill_outcome_not_insufficient (config : Config) (pool : JackpotPool)
    (bet : Bet) (vrf_request : VrfRequest) (bet_key player_key : ℕ)
    (vrf_result : List ℕ) (now : ℤ) :
    fulfill_outcome config pool bet vrf_request bet_key player_key vrf_result now
      ≠ .error .InsufficientFunds := by
  unfold fulfill_outcome
  split
  · exact error_ne (by decide)
  split
  · exact error_ne (by decide)
  split
  · exact error_ne (by decide)
  split
  · split
    · exact error_ne (by decide)
    · rename_i w hw
      split
      · rename_i hgt
        exact absurd (mul_div_10000_le_self (win_multiplier_le _ _) hw) hgt
      · split
        · exact error_ne (by decide)
        · split
          · exact error_ne (by decide)
          · exact fun h => Except.noConfusion h
  · exact fun h => Except.noConfusion h

lemma fulfill_outcome_balance_le (config : Config) (pool : JackpotPool)
    (bet : Bet) (vrf_request : VrfRequest) (bet_key player_key : ℕ)
    (vrf_result : List ℕ) (now : ℤ) (mid : FulfillMid)
    (hok : fulfill_outcome config pool bet vrf_request bet_key player_key
             vrf_result now = .ok mid) :
    mid.pool.balance ≤ pool.balance := by
  unfold fulfill_outcome at hok
  split at hok
  · exact Except.noConfusion hok
  split at hok
  · exact Except.noConfusion hok
  split at hok
  · exact Except.noConfusion hok
  split at hok
  · repeat first
      | exact Except.noConfusion hok
      | split at hok
    rename_i w hw hle x2 nb hnb x3 nw hnw
    injection hok with hok
    subst hok
    obtain ⟨hv, -⟩ := checked_sub_some hnb
    subst hv
    exact Nat.sub_le _ _
  · injection hok with hok
    subst hok
    exact le_refl _

lemma apply_reset_balance_le (pool : JackpotPool) (out : JackpotPool × ℕ)
    (hok : apply_reset pool = .ok out) : out.1.balance ≤ pool.balance := by
  rw [apply_reset_eq] at hok
  injection hok with hok
  subst hok
  split
  · exact Nat.sub_le _ _
  · exact le_refl _

/-! ## C3 -/

/-- C3: the jackpot pool balance can never go negative.  With a multiplier of
at most 10000, the win amount floor(balance * multiplier / 10000) never
exceeds the balance, so fulfill_jackpot can never fail with the defensive
InsufficientFunds check; the reset payout only debits when the balance covers
it; and every successful fulfillment leaves the balance no larger than
before, with all debits staying within the balance. -/
theorem pool_balance_never_negative :
    (∀ b m w, m ≤ 10000 → mul_div_10000 b m = some w → w ≤ b) ∧
    (∀ (config : Config) (pool : JackpotPool) (bet : Bet) (vrf_request : VrfRequest)
       (bet_key player_key : ℕ) (vrf_result : List ℕ) (now : ℤ),
       fulfill_jackpot config pool bet vrf_request bet_key player_key vrf_result now
         ≠ .error .InsufficientFunds) ∧
    (∀ (pool : JackpotPool) (out : JackpotPool × ℕ),
       apply_reset pool = .ok out → out.1.balance ≤ pool.balance) ∧
    (∀ (config : Config) (pool : JackpotPool) (bet : Bet) (vrf_request : VrfRequest)
       (bet_key player_key : ℕ) (vrf_result : List ℕ) (now : ℤ) (out : FulfillOut),
       fulfill_jackpot config pool bet vrf_request bet_key player_key vrf_result now
         = .ok out → out.pool.balance ≤ pool.balance) := by
  refine ⟨fun b m w hm h => mul_div_10000_le_self hm h, ?_, apply_reset_balance_le, ?_⟩
  · intro config pool bet vrf_request bet_key player_key vrf_result now
    unfold fulfill_jackpot
    split
    · rename_i e he
      intro hc
      injection hc with hc
      subst hc
      exact fulfill_outcome_not_insufficient config pool bet vrf_request bet_key
        player_key vrf_result now he
    · split
      · rename_i mid hmid e he
        rw [apply_reset_eq] at he
        exact absurd he (fun hc => Except.noConfusion hc)
      · exact fun h => Except.noConfusion h
  · intro config pool bet vrf_request bet_key player_key vrf_result now out hok
    unfold fulfill_jackpot at hok
    split at hok
    · exact Except.noConfusion hok
    rename_i mid hmid
    split at hok
    · exact Except.noConfusion hok
    rename_i pr pool2 reset_payout hreset
    injection hok with hok
    subst hok
    exact le_trans (apply_reset_balance_le mid.pool _ hreset)
      (fulfill_outcome_balance_le config pool bet vrf_request bet_key player_key
        vrf_result now mid hmid)

/-- C3 witness: a losing fulfillment over a 10000-lamport pool with reset
threshold 6000 leaves the balance within the original balance. -/
theorem pool_balance_never_negative_witness :
    c3_out.pool.balance ≤ c3_pool.balance :=
  pool_balance_never_negative.2.2.2 c2_config c3_pool c2_bet c2_req 2 1 c3_vrf 0
    c3_out (by decide)

/-! ## C4 -/

lemma fulfill_outcome_timeout (config : Config) (pool : JackpotPool) (bet : Bet)
    (vrf_request : VrfRequest) (bet_key player_key : ℕ) (vrf_result : List ℕ)
    (now : ℤ) (hp : vrf_request.status = 0) (hb : vrf_request.bet = bet_key)
    (ht : 3600 ≤ now - vrf_request.timestamp) :
    fulfill_outcome config pool bet vrf_request bet_key player_key vrf_result now
      = .error .VrfTimeout := by
  unfold fulfill_outcome
  rw [if_neg (by simp [hp]), if_neg (by simp [hb]), if_pos (by omega)]

lemma fulfill_outcome_no_timeout (config : Config) (pool : JackpotPool) (bet : Bet)
    (vrf_request : VrfRequest) (bet_key player_key : ℕ) (vrf_result : List ℕ)
    (now : ℤ) (ht : now - vrf_request.timestamp < 3600) :
    fulfill_outcome config pool bet vrf_request bet_key player_key vrf_result now
      ≠ .error .VrfTimeout := by
  unfold fulfill_outcome
  by_cases h1 : vrf_request.status ≠ 0
  · rw [if_pos h1]
    exact error_ne (by decide)
  rw [if_neg h1]
  by_cases h2 : vrf_request.bet ≠ bet_key
  · rw [if_pos h2]
    exact error_ne (by decide)
  rw [if_neg h2, if_neg (not_not_intro ht)]
  repeat first
    | exact error_ne (by decide)
    | exact fun h => Except.noConfusion h
    | split

/-- C4: for a pending request referencing the given bet, fulfill_jackpot
fails with VrfTimeout exactly when at least 3600 seconds have elapsed since
the request timestamp, and the timeout check passes (VrfTimeout is
impossible) when strictly less than 3600 seconds have elapsed. -/
theorem fulfill_timeout_window (config : Config) (pool : JackpotPool) (bet : Bet)
    (vrf_request : VrfRequest) (bet_key player_key : ℕ) (vrf_result : List ℕ)
    (now : ℤ) (hp : vrf_request.status = 0) (hb : vrf_request.bet = bet_key) :
    (3600 ≤ now - vrf_request.timestamp →
      fulfill_jackpot config pool bet vrf_request bet_key player_key vrf_result now
        = .error .VrfTimeout) ∧
    (now - vrf_request.timestamp < 3600 →
      fulfill_jackpot config pool bet vrf_request bet_key player_key vrf_result now
        ≠ .error .VrfTimeout) := by
  constructor
  · intro ht
    unfold fulfill_jackpot
    rw [fulfill_outcome_timeout config pool bet vrf_request bet_key player_key
      vrf_result now hp hb ht]
  · intro ht
    unfold fulfill_jackpot
    split
    · rename_i e he
      intro hc
      injection hc with hc
      subst hc
      exact fulfill_outcome_no_timeout config pool bet vrf_request bet_key
        player_key vrf_result now ht he
    · split
      · rename_i mid hmid e he
        rw [apply_reset_eq] at he
        exact absurd he (fun hc => Except.noConfusion hc)
      · exact fun h => Except.noConfusion h

/-- C4 witness: a pending request at timestamp 0 fulfilled at time 4000
fails with VrfTimeout. -/
theorem fulfill_timeout_window_witness :
    fulfill_jackpot c2_config c2_pool c2_bet c2_req 2 1 c3_vrf 4000
      = .error .VrfTimeout :=
  (fulfill_timeout_window c2_config c2_pool c2_bet c2_req 2 1 c3_vrf 4000
    (by decide) (by decide)).1 (by decide)

/-! ## C5 -/

/-- C5: fulfilling a request whose status is not pending fails with
VrfRequestNotFound; the returned value carries no updated account state, so
pool, bet and config are untouched. -/
theorem fulfill_nonpending_fails (config : Config) (pool : JackpotPool) (bet : Bet)
    (vrf_request : VrfRequest) (bet_key player_key : ℕ) (vrf_result : List ℕ)
    (now : ℤ) (h : vrf_request.status ≠ 0) :
    fulfill_jackpot config pool bet vrf_request bet_key player_key vrf_result now
      = .error .VrfRequestNotFound := by
  unfold fulfill_jackpot
  have hout : fulfill_outcome config pool bet vrf_request bet_key player_key
      vrf_result now = .error .VrfRequestNotFound := by
    unfold fulfill_outcome
    rw [if_pos h]
  rw [hout]

/-- C5 witness: fulfilling an already-fulfilled request (status 1) fails with
VrfRequestNotFound. -/
theorem fulfill_nonpending_fails_witness :
    fulfill_jackpot c2_config c2_pool c2_bet c5_req 2 1 c3_vrf 0
      = .error .VrfRequestNotFound :=
  fulfill_nonpending_fails c2_config c2_pool c2_bet c5_req 2 1 c3_vrf 0 (by decide)

/-! ## C6 -/

lemma checked_add16_some {a b v : ℕ} (h : checked_add16 a b = some v) : v = a + b := by
  unfold checked_add16 at h
  split at h <;> simp_all

lemma merge_min_bet_ok {c c4 : Config} {o : Option ℕ} (h : merge_min_bet c o = .ok c4) :
    c4.max_bet = c.max_bet ∧ (o = none → c4 = c) := by
  cases o with
  | none =>
    unfold merge_min_bet at h
    injection h with h
    subst h
    exact ⟨rfl, fun _ => rfl⟩
  | some mb =>
    simp only [merge_min_bet] at h
    split at h
    · exact Except.noConfusion h
    · injection h with h
      subst h
      exact ⟨rfl, fun hc => Option.noConfusion hc⟩

lemma merge_max_bet_ok {c c5 : Config} {o : Option ℕ} (h : merge_max_bet c o = .ok c5) :
    c5.min_bet = c.min_bet ∧
    (∀ m, o = some m → c5.max_bet = m ∧ c.min_bet ≤ m) ∧
    (o = none → c5 = c) := by
  cases o with
  | none =>
    unfold merge_max_bet at h
    injection h with h
    subst h
    exact ⟨rfl, fun m hm => Option.noConfusion hm, fun _ => rfl⟩
  | some mxb =>
    simp only [merge_max_bet] at h
    split at h
    · exact Except.noConfusion h
    · rename_i hge
      injection h with h
      subst h
      refine ⟨rfl, fun m hm => ?_, fun hc => Option.noConfusion hc⟩
      injection hm with hm
      subst hm
      exact ⟨rfl, by omega⟩

lemma merge_win_prob_ok {c c6 : Config} {o : Option ℕ} (h : merge_win_prob c o = .ok c6) :
    c6.min_bet = c.min_bet ∧ c6.max_bet = c.max_bet := by
  cases o with
  | none =>
    unfold merge_win_prob at h
    injection h with h
    subst h
    exact ⟨rfl, rfl⟩
  | some wp =>
    simp only [merge_win_prob] at h
    split at h
    · injection h with h
      subst h
      exact ⟨rfl, rfl⟩
    · exact Except.noConfusion h

/-- C6 amended: a successful update_config always leaves a merged percentage
sum of at most 10000; the bet-bound relationship is re-validated only when
max_bet is supplied (against the merged min_bet), and is preserved when
neither bound is supplied, but it is NOT re-checked when only min_bet is
supplied. -/
theorem update_config_merged_validation
    (config : Config) (pool : JackpotPool) (reward_vault : RewardVault)
    (authority_key : ℕ) (jp hp dp mb mxb wp rt ms apy : Option ℕ)
    (out : Config × JackpotPool × RewardVault)
    (hok : update_config config pool reward_vault authority_key jp hp dp mb mxb wp
             rt ms apy = .ok out) :
    (out.1.jackpot_percentage + out.1.house_percentage + out.1.defi_percentage
       ≤ 10000) ∧
    (∀ m, mxb = some m → out.1.min_bet ≤ out.1.max_bet) ∧
    (mb = none → mxb = none → config.min_bet ≤ config.max_bet →
      out.1.min_bet ≤ out.1.max_bet) := by
  unfold update_config at hok
  split at hok
  · exact Except.noConfusion hok
  repeat first
    | exact Except.noConfusion hok
    | split at hok
  rename_i x1 c4 h4 x2 c5 h5 x3 c6 h6 x4 s1 ha1 x5 tot ha2 hle
  injection hok with hok
  subst hok
  have e1 := checked_add16_some ha1
  have e2 := checked_add16_some ha2
  have hto : tot ≤ 10000 := not_not.mp hle
  obtain ⟨m4max, h4none⟩ := merge_min_bet_ok h4
  obtain ⟨m5min, hsome, h5none⟩ := merge_max_bet_ok h5
  obtain ⟨w6min, w6max⟩ := merge_win_prob_ok h6
  refine ⟨?_, ?_, ?_⟩
  · show c6.jackpot_percentage + c6.house_percentage + c6.defi_percentage ≤ 10000
    omega
  · intro m hm
    obtain ⟨hmax, hminle⟩ := hsome m hm
    show c6.min_bet ≤ c6.max_bet
    omega
  · intro hmb hmxb hcfg
    have hc5 : c5 = c4 := h5none hmxb
    have hc4 := h4none hmb
    have hmin : c4.min_bet = config.min_bet := by rw [hc4]; rfl
    have hmax : c4.max_bet = config.max_bet := by rw [hc4]; rfl
    show c6.min_bet ≤ c6.max_bet
    subst hc5
    omega

/-- C6 counterexample: with stored bounds min_bet = 10, max_bet = 100,
supplying only min_bet = 200 succeeds and leaves min_bet > max_bet, so the
bet-bound relationship is not re-validated on the merged result. -/
theorem update_config_counterexample :
    update_config c6_config c6_pool c6_vault 7 none none none (some 200) none none
        none none none = .ok c6_out ∧
    c6_out.1.min_bet = 200 ∧ c6_out.1.max_bet = 100 ∧
    ¬ c6_out.1.min_bet ≤ c6_out.1.max_bet := by
  exact ⟨by decide, by decide, by decide, by decide⟩

/-- C6 witness: a successful update supplying jackpot_percentage = 300 and
max_bet = 500 satisfies the amended guarantees. -/
theorem update_config_merged_validation_witness :
    (c6w_out.1.jackpot_percentage + c6w_out.1.house_percentage +
       c6w_out.1.defi_percentage ≤ 10000) ∧
    (∀ m, (some 500 : Option ℕ) = some m → c6w_out.1.min_bet ≤ c6w_out.1.max_bet) ∧
    ((none : Option ℕ) = none → (some 500 : Option ℕ) = none →
      c6_config.min_bet ≤ c6_config.max_bet → c6w_out.1.min_bet ≤ c6w_out.1.max_bet) :=
  update_config_merged_validation c6_config c6_pool c6_vault 7 (some 300) none none
    none (some 500) none none none none c6w_out (by decide)

/-! ## C7 -/

lemma checked_mul_some {a b v : ℕ} (h : checked_mul a b = some v) : v = a * b := by
  unfold checked_mul at h
  split at h <;> simp_all

lemma checked_div_some {a b v : ℕ} (hb : b ≠ 0) (h : checked_div a b = some v) :
    v = a / b := by
  unfold checked_div at h
  rw [if_neg hb] at h
  injection h with h
  exact h.symm

lemma rewards_calc_some {s a e v : ℕ} (h : rewards_calc s a e = some v) :
    v = s * a * e / 10000 / 31536000 := by
  unfold rewards_calc at h
  split at h
  · exact Option.noConfusion h
  rename_i y1 x1 h1
  split at h
  · exact Option.noConfusion h
  rename_i y2 x2 h2
  split at h
  · exact Option.noConfusion h
  rename_i y3 x3 h3
  have e1 := checked_mul_some h1
  have e2 := checked_mul_some h2
  have e3 := checked_div_some (by norm_num) h3
  have e4 := checked_div_some (by norm_num) h
  subst e4 e3 e2 e1
  rfl

lemma elapsed_of_eq_or_zero (now last : ℤ) :
    elapsed_of now last = now - last ∨ elapsed_of now last = 0 := by
  unfold elapsed_of checked_sub_i64
  by_cases hc : -(2 ^ 63) ≤ now - last ∧ now - last ≤ 2 ^ 63 - 1
  · left
    rw [if_pos hc]
  · right
    rw [if_neg hc]

lemma elapsed_of_self (now : ℤ) : elapsed_of now now = 0 := by
  unfold elapsed_of checked_sub_i64
  rw [sub_self, if_pos (by norm_num)]

lemma claim_rewards_core_ok (config : Config) (reward_vault : RewardVault)
    (reward_claim1 : RewardClaim) (now : ℤ) (vault_lamports : ℕ) (out : ClaimOut)
    (hok : claim_rewards_core config reward_vault reward_claim1 now vault_lamports
             = .ok out) :
    0 < elapsed_of now reward_claim1.last_claim ∧
    out.rewards = reward_vault.staked_amount *
      (config.defi_percentage * reward_vault.apy_bps / 10000) *
      (elapsed_of now reward_claim1.last_claim).toNat / 10000 / 31536000 := by
  unfold claim_rewards_core at hok
  split at hok
  · exact Except.noConfusion hok
  rename_i hte
  split at hok
  · exact Except.noConfusion hok
  rename_i y1 ad had
  split at hok
  · exact Except.noConfusion hok
  rename_i y2 r hr
  split at hok
  · exact Except.noConfusion hok
  rename_i h0
  split at hok
  · exact Except.noConfusion hok
  rename_i hvl
  split at hok
  · injection hok with hok
    subst hok
    obtain ⟨ha1, -⟩ := mul_div_10000_some had
    subst ha1
    refine ⟨by omega, ?_⟩
    exact rewards_calc_some hr
  all_goals exact Except.noConfusion hok

/-- C7: a successful claim_rewards pays exactly
floor(staked * floor(defi_bp * apy_bp / 10000) * elapsed / 10000 / 31536000)
in that operation order; in particular staked = 1000000, defi_bp = 100,
apy_bp = 500, elapsed = 31536000 pays 500. -/
theorem claim_rewards_reward_formula :
    (∀ (config : Config) (reward_vault : RewardVault) (reward_claim : RewardClaim)
       (user_key : ℕ) (now : ℤ) (vault_lamports claim_bump : ℕ) (out : ClaimOut),
       claim_rewards config reward_vault reward_claim user_key now vault_lamports
         claim_bump = .ok out →
       out.rewards = reward_vault.staked_amount *
         (config.defi_percentage * reward_vault.apy_bps / 10000) *
         (now - reward_claim.last_claim).toNat / 10000 / 31536000) ∧
    (claim_rewards c7_config c7_vault c7_claim 9 31536000 1000000 0).map
      (fun o => o.rewards) = .ok 500 := by
  refine ⟨?_, by decide⟩
  intro config reward_vault reward_claim user_key now vault_lamports claim_bump out hok
  unfold claim_rewards at hok
  split at hok
  · exact Except.noConfusion hok
  split at hok
  · obtain ⟨hpos, -⟩ := claim_rewards_core_ok _ _ _ _ _ _ hok
    have h0 : elapsed_of now
        ({ user := user_key, total_earned := 0, total_claimed := 0,
           last_claim := now, bump := claim_bump } : RewardClaim).last_claim = 0 :=
      elapsed_of_self now
    omega
  · obtain ⟨hpos, hfor⟩ := claim_rewards_core_ok _ _ _ _ _ _ hok
    rcases elapsed_of_eq_or_zero now reward_claim.last_claim with he | he
    · rw [he] at hfor
      exact hfor
    · rw [he] at hpos
      omega

/-- C7 witness: the formula applied to the concrete run paying 500. -/
theorem claim_rewards_reward_formula_witness :
    c7_out.rewards = c7_vault.staked_amount *
      (c7_config.defi_percentage * c7_vault.apy_bps / 10000) *
      ((31536000 : ℤ) - c7_claim.last_claim).toNat / 10000 / 31536000 :=
  claim_rewards_reward_formula.1 c7_config c7_vault c7_claim 9 31536000 1000000 0
    c7_out (by decide)

/-! ## C8 -/

lemma yield_reward_some {d a s e v : ℕ} (h : yield_reward d a s e = some v) :
    v = s * (d * a / 10000) * e / 10000 / 31536000 := by
  unfold yield_reward at h
  split at h
  · exact Option.noConfusion h
  rename_i y ad had
  obtain ⟨ha1, -⟩ := mul_div_10000_some had
  subst ha1
  exact rewards_calc_some h

lemma nat_div_linear_bounds (k y C : ℕ) (hk : 0 < k) (hC : 0 < C) :
    k * (y / C) ≤ k * y / C ∧ k * y / C ≤ k * (y / C) + (k - 1) := by
  constructor
  · rw [Nat.le_div_iff_mul_le hC]
    calc k * (y / C) * C = k * (y / C * C) := by ring
      _ ≤ k * y := Nat.mul_le_mul_left k (Nat.div_mul_le_self y C)
  · have h1 : k * y = k * (y % C) + k * (y / C) * C := by
      have hy : C * (y / C) + y % C = y := Nat.div_add_mod y C
      calc k * y = k * (C * (y / C) + y % C) := by rw [hy]
        _ = k * (y % C) + k * (y / C) * C := by ring
    have h2 : k * (y % C) / C < k := by
      rw [Nat.div_lt_iff_lt_mul hC]
      exact mul_lt_mul_of_pos_left (Nat.mod_lt y hC) hk
    calc k * y / C = (k * (y % C) + k * (y / C) * C) / C := by rw [h1]
      _ = k * (y % C) / C + k * (y / C) := Nat.add_mul_div_right _ _ hC
      _ ≤ (k - 1) + k * (y / C) := Nat.add_le_add_right (Nat.le_pred_of_lt h2) _
      _ = k * (y / C) + (k - 1) := Nat.add_comm _ _

/-- C8 counterexample: with defi_bp = 100, apy_bp = 100, staked = 1 the code
formula gives reward(1) = 0 but reward(315360000000 * 1) = 1, so
reward(k * e) = k * reward(e) fails at k = 315360000000, e = 1. -/
theorem yield_reward_not_linear :
    yield_reward 100 100 1 (315360000000 * 1) = some 1 ∧
    yield_reward 100 100 1 1 = some 0 ∧
    (1 : ℕ) ≠ 315360000000 * 0 :=
  ⟨by decide, by decide, by decide⟩

/-- C8 amended: for fixed staked, defi_bp and apy_bp the reward is linear in
elapsed only up to floor rounding: whenever reward(e) and reward(k * e) are
both defined, k * reward(e) ≤ reward(k * e) ≤ k * reward(e) + (k - 1);
exact equality can fail because of the integer floor divisions. -/
theorem yield_reward_linear_up_to_rounding
    (d a s e k r rk : ℕ) (hk : 0 < k)
    (he : yield_reward d a s e = some r)
    (hke : yield_reward d a s (k * e) = some rk) :
    k * r ≤ rk ∧ rk ≤ k * r + (k - 1) := by
  have h1 := yield_reward_some he
  have h2 := yield_reward_some hke
  have hr : r = s * (d * a / 10000) * e / (10000 * 31536000) := by
    rw [h1, Nat.div_div_eq_div_mul]
  have hrk : rk = k * (s * (d * a / 10000) * e) / (10000 * 31536000) := by
    rw [h2, Nat.div_div_eq_div_mul]
    congr 1
    ring
  obtain ⟨hb1, hb2⟩ :=
    nat_div_linear_bounds k (s * (d * a / 10000) * e) (10000 * 31536000) hk
      (by norm_num)
  constructor
  · rw [hr, hrk]
    exact hb1
  · rw [hr, hrk]
    exact hb2

/-- C8 witness: with defi_bp = apy_bp = 100, staked = 1, e = 315360000000 and
k = 2 the rounding bounds hold for reward(e) = 1, reward(2e) = 2. -/
theorem yield_reward_linear_up_to_rounding_witness :
    2 * 1 ≤ 2 ∧ (2 : ℕ) ≤ 2 * 1 + (2 - 1) :=
  yield_reward_linear_up_to_rounding 100 100 1 315360000000 2 1 2 (by decide)
    (by decide) (by decide)

/-! ## C9 -/

/-- C9: on every fulfillment, after the win/loss branch, the pool auto-reset
logic pays exactly floor(reset_threshold / 2) to the current player and zeroes
bets_since_win whenever reset_threshold > 0 and the post-branch balance has
reached reset_threshold, and changes nothing otherwise; fulfill_jackpot is
exactly the win/loss branch followed by this reset step. -/
theorem reset_logic_on_fulfillment :
    (∀ pool : JackpotPool,
       apply_reset pool =
         .ok (if pool.reset_threshold ≤ pool.balance ∧ 0 < pool.reset_threshold then
                ({ pool with
                   balance := pool.balance - pool.reset_threshold / 2,
                   bets_since_win := 0 }, pool.reset_threshold / 2)
              else (pool, 0))) ∧
    (∀ (config : Config) (pool : JackpotPool) (bet : Bet) (vrf_request : VrfRequest)
       (bet_key player_key : ℕ) (vrf_result : List ℕ) (now : ℤ) (mid : FulfillMid),
       fulfill_outcome config pool bet vrf_request bet_key player_key vrf_result now
         = .ok mid →
       fulfill_jackpot config pool bet vrf_request bet_key player_key vrf_result now
         = (apply_reset mid.pool).map
             (fun pr => { config := mid.config, pool := pr.1, bet := mid.bet,
                          vrf_request := mid.vrf_request,
                          player_credit := mid.win_credit + pr.2 })) := by
  refine ⟨apply_reset_eq, ?_⟩
  intro config pool bet vrf_request bet_key player_key vrf_result now mid hmid
  unfold fulfill_jackpot
  rw [hmid]
  rcases h : apply_reset mid.pool with e | pr
  · rw [apply_reset_eq] at h
    exact Except.noConfusion h
  · cases pr with
    | mk pool2 reset_payout => simp [h, Except.map]

/-- C9 witness: the factorization applied to a concrete losing fulfillment
whose post-branch balance 10000 exceeds the reset threshold 4000. -/
theorem reset_logic_on_fulfillment_witness :
    fulfill_jackpot c2_config c9_pool c2_bet c2_req 2 1 c9_vrf 0 =
      (apply_reset c9_mid.pool).map
        (fun pr => { config := c9_mid.config, pool := pr.1, bet := c9_mid.bet,
                     vrf_request := c9_mid.vrf_request,
                     player_credit := c9_mid.win_credit + pr.2 }) :=
  reset_logic_on_fulfillment.2 c2_config c9_pool c2_bet c2_req 2 1 c9_vrf 0 c9_mid
    (by decide)

/-! ## C10 -/

/-- C10 amended: a new claimant (default, all-zero ledger user) can never
receive a reward: the first claim_rewards call always fails, with
ClaimPeriodNotStarted whenever the vault has a nonzero staked amount (with
DefiNotInitialized when the reserve is empty, since that check runs first). -/
theorem first_claim_always_fails
    (config : Config) (reward_vault : RewardVault) (reward_claim : RewardClaim)
    (user_key : ℕ) (now : ℤ) (vault_lamports claim_bump : ℕ)
    (h : reward_claim.user = 0) :
    (∀ out, claim_rewards config reward_vault reward_claim user_key now
        vault_lamports claim_bump ≠ .ok out) ∧
    (0 < reward_vault.staked_amount →
      claim_rewards config reward_vault reward_claim user_key now vault_lamports
        claim_bump = .error .ClaimPeriodNotStarted) := by
  have hcore : claim_rewards_core config reward_vault
      { user := user_key, total_earned := 0, total_claimed := 0,
        last_claim := now, bump := claim_bump } now vault_lamports
      = .error .ClaimPeriodNotStarted := by
    unfold claim_rewards_core
    rw [if_pos (le_of_eq (elapsed_of_self now))]
  constructor
  · intro out hc
    unfold claim_rewards at hc
    split at hc
    · exact Except.noConfusion hc
    rw [hcore] at hc
    exact Except.noConfusion hc
  · intro hs
    unfold claim_rewards
    rw [if_neg (by omega), if_pos h, hcore]

/-- C10 counterexample: a first call by a new claimant while the vault has
zero staked amount fails with DefiNotInitialized, not ClaimPeriodNotStarted,
so the first call does not ALWAYS fail with ClaimPeriodNotStarted. -/
theorem first_claim_error_counterexample :
    claim_rewards c7_config c10_empty_vault c10_claim 3 100 0 0
      = .error .DefiNotInitialized ∧
    (Except.error CasinoError.DefiNotInitialized : Except CasinoError ClaimOut)
      ≠ .error .ClaimPeriodNotStarted :=
  ⟨by decide, by decide⟩

/-- C10 witness: with a nonzero staked amount the first call fails with
ClaimPeriodNotStarted. -/
theorem first_claim_always_fails_witness :
    claim_rewards c7_config c7_vault c10_claim 3 100 0 0
      = .error .ClaimPeriodNotStarted :=
  (first_claim_always_fails c7_config c7_vault c10_claim 3 100 0 0 (by decide)).2
    (by decide)

end Casino
